import Mathlib

/-!
Shallow embedding of the geo-scoring core of the repository, i.e. of
`src/mcp-servers/safety/src/lib/poi-index.ts` (the POI index: catalog
loading, spatial queries, and the composite scoring formula) together
with the two constants of the older engine in `src/unnamed/part_001`
(`src/lib/score.ts`: its `scorePoint` weights and its `avail` blend).

Modelling conventions:
* JavaScript numbers stored in parsed GeoJSON coordinates are modelled by
  `JsNum`: either a finite value (every finite IEEE double is a rational)
  or a non-finite value (`NaN`, `±Infinity`, or the `undefined` produced
  by destructuring a too-short coordinate array); `Number.isFinite` is
  `false` exactly on the non-finite constructor.
* Query-time arithmetic (the haversine formula, the scoring formula) is
  modelled over the real numbers, the standard idealisation of IEEE
  doubles.
* The module-level lazy catalog cache (`LAYERS` / `ensureLoaded`) is
  modelled by passing the loaded `Layers` value explicitly: the lazy
  memoisation always yields the same `Layers` value for the whole process
  lifetime, so every query reads one fixed `Layers`.
* `JSON.parse` / `fs` plumbing is outside the model: `readGeoPoints`
  takes the parsed feature list of the file (a missing file behaves as
  the empty feature list, which gives the same output `[]`).
-/

/-- A JS number as found in a GeoJSON coordinate slot: finite (a rational)
or non-finite (NaN, infinities, or `undefined` from a missing slot). -/
inductive JsNum where
  | fin : ℚ → JsNum
  | nonFinite : JsNum
deriving DecidableEq

/-- The `Poi` record of poi-index.ts: name, finite coordinates, optional
`primary` and `tags` carried through unchanged. -/
structure Poi where
  name : String
  lon : ℚ
  lat : ℚ
  primary : Option String
  tags : Option (List String)
deriving DecidableEq

/-- A GeoJSON geometry object as far as `readGeoPoints` inspects it:
its `type` string and its `coordinates` array. -/
structure Geom where
  type : String
  coordinates : List JsNum
deriving DecidableEq

/-- A GeoJSON feature as far as `readGeoPoints` inspects it: an optional
geometry and the `properties.name` / `properties.primary` /
`properties.tags` fields (`none` models an absent field). -/
structure Feature where
  geometry : Option Geom
  name : Option String
  primary : Option String
  tags : Option (List String)
deriving DecidableEq

/-- JS `String.prototype.trim` at the character level: strip leading and
trailing whitespace. -/
def trimChars (l : List Char) : List Char :=
  ((l.dropWhile Char.isWhitespace).reverse.dropWhile Char.isWhitespace).reverse

/-- JS `String.prototype.trim` on a string (the `.trim()` call of the
`readGeoPoints` name handling), modelled executably. -/
def jsTrim (s : String) : String := String.mk (trimChars s.data)

/-- One iteration of the `readGeoPoints` feature loop: skip the feature
when the geometry is missing or not of type "Point", when either
destructured coordinate is non-finite, or when the name (defaulted to the
empty string, stringified, trimmed) is empty; otherwise produce the `Poi`.
A missing coordinate slot destructures to `undefined`, on which
`Number.isFinite` is false, hence the `getD JsNum.nonFinite`. -/
def parseFeature (f : Feature) : Option Poi :=
  match f.geometry with
  | none => none
  | some g =>
    if g.type = ("Point") then
      match (g.coordinates.get? 0).getD JsNum.nonFinite,
            (g.coordinates.get? 1).getD JsNum.nonFinite with
      | JsNum.fin lon, JsNum.fin lat =>
        let name := jsTrim ((f.name).getD (""))
        if name = ("") then none
        else some ⟨name, lon, lat, f.primary, f.tags⟩
      | _, _ => none
    else none

/-- The deduplication key of poi-index.ts, the string
`name + pipe + lon + pipe + lat`.  Since the two numeric segments never
contain the pipe character, that string encoding is injective in the
triple (name, lon, lat), so the key is modelled as the triple itself. -/
def poiKey (p : Poi) : String × ℚ × ℚ := (p.name, p.lon, p.lat)

/-- Worker for `dedupePois`: the JS loop over the list carrying the
`seen` set of keys, keeping an element iff its key is not yet seen. -/
def dedupeAux : List Poi → List (String × ℚ × ℚ) → List Poi
  | [], _ => []
  | p :: rest, seen =>
    if poiKey p ∈ seen then dedupeAux rest seen
    else p :: dedupeAux rest (poiKey p :: seen)

/-- `dedupePois` of poi-index.ts: drop every element whose (name, lon,
lat) key already occurred earlier in the list; first occurrence wins. -/
def dedupePois (l : List Poi) : List Poi := dedupeAux l []

/-- `readGeoPoints` of poi-index.ts applied to the parsed feature list of
a file: keep the features passing `parseFeature`, then deduplicate. -/
def readGeoPoints (feats : List Feature) : List Poi :=
  dedupePois (feats.filterMap parseFeature)

/-- The parsed contents of the four GeoJSON data files named in `FILES`
(shelters, schools, health, hospitals); a missing file is the empty
list. -/
structure GeoFiles where
  shelter : List Feature
  school : List Feature
  health : List Feature
  hospital : List Feature

/-- The `Layers` record of poi-index.ts: one point list per category. -/
structure Layers where
  shelter : List Poi
  school : List Poi
  health : List Poi

/-- `ensureLoaded` of poi-index.ts, as a function of the file contents:
shelters and schools load from their own files; the health layer is the
health file merged with the hospital file (the alias), deduplicated
again. -/
def ensureLoaded (gf : GeoFiles) : Layers :=
  ⟨readGeoPoints gf.shelter, readGeoPoints gf.school,
    dedupePois (readGeoPoints gf.health ++ readGeoPoints gf.hospital)⟩

noncomputable section

open scoped Classical

/-- Earth radius in meters (`R_EARTH` in poi-index.ts). -/
def R_EARTH : ℝ := 6371000

/-- Degrees to radians (`toRad` in poi-index.ts). -/
def toRad (d : ℝ) : ℝ := d * Real.pi / 180

/-- The haversine intermediate `a` of poi-index.ts. -/
def haversineA (lon1 lat1 lon2 lat2 : ℝ) : ℝ :=
  Real.sin (toRad (lat2 - lat1) / 2) ^ 2 +
    Real.cos (toRad lat1) * Real.cos (toRad lat2) *
      Real.sin (toRad (lon2 - lon1) / 2) ^ 2

/-- `haversineMeters` of poi-index.ts: great-circle distance with the
`sqrt a` term clamped to at most 1 before `asin`. -/
def haversineMeters (lon1 lat1 lon2 lat2 : ℝ) : ℝ :=
  2 * R_EARTH * Real.arcsin (min 1 (Real.sqrt (haversineA lon1 lat1 lon2 lat2)))

/-- `clamp01` of poi-index.ts. -/
def clamp01 (x : ℝ) : ℝ := max 0 (min 1 x)

/-- The `PoiNear` record of poi-index.ts: a `Poi` together with its
distance to the query origin and its category kind. -/
structure PoiNear where
  name : String
  lon : ℚ
  lat : ℚ
  primary : Option String
  tags : Option (List String)
  distance_m : ℝ
  kind : String

/-- `withDistances` of poi-index.ts: annotate each point of a layer with
its haversine distance to the origin and the category kind. -/
def withDistances (kind : String) (arr : List Poi) (lon lat : ℝ) : List PoiNear :=
  arr.map fun p =>
    ⟨p.name, p.lon, p.lat, p.primary, p.tags,
      haversineMeters lon lat (↑p.lon) (↑p.lat), kind⟩

/-- The `sort((a, b) => a.distance_m - b.distance_m)` calls of
`nearbyPois`: a stable sort ascending by distance. -/
def sortByDistance (l : List PoiNear) : List PoiNear :=
  l.mergeSort fun a b => decide (a.distance_m ≤ b.distance_m)

/-- `withinRadius` of poi-index.ts: keep the points whose distance is at
most (inclusively) the radius. -/
def withinRadius (sortedByDistance : List PoiNear) (radiusMeters : ℝ) : List PoiNear :=
  sortedByDistance.filter fun p => decide (p.distance_m ≤ radiusMeters)

/-- The `params` record echoed by `nearbyPois`. -/
structure NearbyParams where
  lon : ℝ
  lat : ℝ
  radiusMeters : ℝ
  topN : ℕ

/-- The `NearbyResult` record of poi-index.ts. -/
structure NearbyResult where
  shelters : List PoiNear
  schools : List PoiNear
  healths : List PoiNear
  all : List PoiNear
  params : NearbyParams

/-- `nearbyPois` of poi-index.ts: per category, annotate with distances,
sort ascending by distance, keep the in-radius points, truncate to the
first `topN` (`slice(0, topN)` is `take topN` for a non-negative integer
`topN`); `all` is the merged, re-sorted combined list.  The loaded layers
are an explicit argument (see the module comment on the lazy cache). -/
def nearbyPois (L : Layers) (lon lat radiusMeters : ℝ) (topN : ℕ) : NearbyResult :=
  let s := sortByDistance (withDistances ("shelter") L.shelter lon lat)
  let c := sortByDistance (withDistances ("school") L.school lon lat)
  let h := sortByDistance (withDistances ("health") L.health lon lat)
  let shelters := (withinRadius s radiusMeters).take topN
  let schools := (withinRadius c radiusMeters).take topN
  let healths := (withinRadius h radiusMeters).take topN
  let all := sortByDistance (shelters ++ schools ++ healths)
  ⟨shelters, schools, healths, all, ⟨lon, lat, radiusMeters, topN⟩⟩

/-- The `Weights` record of poi-index.ts. -/
structure Weights where
  shelter : ℝ
  school : ℝ
  health : ℝ

/-- The `WEIGHTS` constant of poi-index.ts (the stricter scoring knobs). -/
def WEIGHTS : Weights := ⟨0.6, 0.25, 0.15⟩

/-- The `COUNT_SAT_K` constant of poi-index.ts. -/
def COUNT_SAT_K : ℝ := 4

/-- The `MIX_COUNTS` constant of poi-index.ts. -/
def MIX_COUNTS : ℝ := 0.8

/-- The `MIX_PROX` constant of poi-index.ts. -/
def MIX_PROX : ℝ := 1 - MIX_COUNTS

/-- The count normalisation `n / (n + COUNT_SAT_K)` of `scorePoint`
(the `sCountNorm` / `cCountNorm` / `hCountNorm` expressions). -/
def countNorm (n : ℕ) : ℝ := n / (n + COUNT_SAT_K)

/-- The `prox` closure of `scorePoint`.  The argument is the
`nearest?.distance_m ?? Infinity` value: `none` models the `Infinity`
fed in when the category has no in-radius point, on which
`Number.isFinite` is false and `prox` returns 0; on a finite distance it
returns `clamp01(1 - d / radiusMeters)` raised to the power 1.3.
Caveat: the real-valued division here is total (`d / 0 = 0` in Lean), so
this definition is faithful to the source only for a nonzero radius; the
IEEE-faithful version of the same closure, which produces NaN from the
`0 / 0` reached at radius 0 with a nearest distance of exactly 0, is
`jsProx` below, and `jsProx_eq` proves the two agree whenever the radius
is nonzero. -/
def prox (radiusMeters : ℝ) : Option ℝ → ℝ
  | none => 0
  | some d => clamp01 (1 - d / radiusMeters) ^ (1.3 : ℝ)

/-- The per-category score expression of `scorePoint`:
`weight * (MIX_COUNTS * countNorm + MIX_PROX * prox)`, instantiated at
the three category weights. -/
def categoryScore (w radiusMeters : ℝ) (n : ℕ) (od : Option ℝ) : ℝ :=
  w * (MIX_COUNTS * countNorm n + MIX_PROX * prox radiusMeters od)

/-- The `ScoreParams` record of poi-index.ts; `none` models an absent
optional field, defaulted inside `scorePoint` (radius 1500, topN 25). -/
structure ScoreParams where
  lon : ℝ
  lat : ℝ
  radiusMeters : Option ℝ
  topN : Option ℕ

/-- One category block of a `ScoreResult`: in-radius (truncated) count
and nearest in-radius point. -/
structure CatSummary where
  count : ℕ
  nearest : Option PoiNear

/-- The `params` record echoed by `scorePoint`. -/
structure ScoreResultParams where
  lon : ℝ
  lat : ℝ
  radiusMeters : ℝ
  weights : Weights
  topN : ℕ

/-- The `ScoreResult` record of poi-index.ts (the presentation-only
`explain` string and the optional `_diagnostics` block, which never feed
back into any number, are not modelled). -/
structure ScoreResult where
  shelters : CatSummary
  schools : CatSummary
  healths : CatSummary
  score : ℝ
  params : ScoreResultParams

/-- `scorePoint` of poi-index.ts: default the radius to 1500 and topN to
25, run `nearbyPois`, summarise each category by its (truncated)
in-radius count and first (nearest) in-radius point, blend count and
proximity sub-scores per category with the fixed weights, and clamp the
sum.  `nearby.shelters[0] ?? null` is `head?`, and
`nearest?.distance_m ?? Infinity` is `Option.map PoiNear.distance_m`
(see `prox`). -/
def scorePoint (L : Layers) (params : ScoreParams) : ScoreResult :=
  let lon := params.lon
  let lat := params.lat
  let radiusMeters := params.radiusMeters.getD 1500
  let topN := params.topN.getD 25
  let nearby := nearbyPois L lon lat radiusMeters topN
  let sheltersSum : CatSummary := ⟨nearby.shelters.length, nearby.shelters.head?⟩
  let schoolsSum : CatSummary := ⟨nearby.schools.length, nearby.schools.head?⟩
  let healthsSum : CatSummary := ⟨nearby.healths.length, nearby.healths.head?⟩
  let sScore := categoryScore WEIGHTS.shelter radiusMeters sheltersSum.count
    (sheltersSum.nearest.map PoiNear.distance_m)
  let cScore := categoryScore WEIGHTS.school radiusMeters schoolsSum.count
    (schoolsSum.nearest.map PoiNear.distance_m)
  let hScore := categoryScore WEIGHTS.health radiusMeters healthsSum.count
    (healthsSum.nearest.map PoiNear.distance_m)
  let score := clamp01 (sScore + cScore + hScore)
  ⟨sheltersSum, schoolsSum, healthsSum, score, ⟨lon, lat, radiusMeters, WEIGHTS, topN⟩⟩

namespace scoreTs

/-- The local weight constant `w` of the older engine
(`src/lib/score.ts` in `src/unnamed/part_001`): shelters 0.5, schools
0.3, healths 0.2. -/
def w : Weights := ⟨0.5, 0.3, 0.2⟩

/-- The `avail` blend of the older engine: with a positive in-radius
count, a capped count ratio; with count zero, an availability fading
with the distance to the nearest catalog point (`1 / (1 + d / 2000)`),
and 0 only when the category has no point at all (`nearest_m == null`). -/
def avail (count : ℕ) (nearest_m : Option ℝ) (softCap : ℝ) : ℝ :=
  if 0 < count then min 1 ((count : ℝ) / softCap)
  else
    match nearest_m with
    | none => 0
    | some d => 1 / (1 + d / 2000)

end scoreTs

/-- Empty layers: all three category catalogs empty. -/
def emptyLayers : Layers := ⟨[], [], []⟩

/-- A shelter on the antipodal meridian of the origin (0, 0): its
haversine distance from (0, 0) is pi times the Earth radius, far beyond
any realistic radius. -/
def farShelter : Poi := ⟨("Far Shelter"), 180, 0, none, none⟩

/-- Layers holding exactly one shelter, `farShelter`. -/
def farLayers : Layers := ⟨[farShelter], [], []⟩

/-- A shelter exactly at the coordinate origin (0, 0). -/
def originShelter : Poi := ⟨("Origin Shelter"), 0, 0, none, none⟩

/-- Layers holding exactly one shelter, `originShelter`. -/
def originLayers : Layers := ⟨[originShelter], [], []⟩

/-- A GeoJSON feature with a finite but out-of-range longitude (999). -/
def outOfRangeFeature : Feature :=
  ⟨some ⟨("Point"), [JsNum.fin 999, JsNum.fin 0]⟩, some ("Out Of Range"), none, none⟩

/-- The `Poi` that `readGeoPoints` produces from `outOfRangeFeature`. -/
def outOfRangePoi : Poi := ⟨("Out Of Range"), 999, 0, none, none⟩

/-- A JS IEEE double as it can appear in the score arithmetic of
`scorePoint`: a finite value (idealised as an exact real), one of the
two infinities, or NaN.  Negative zero is not distinguished from zero
(real numbers have a single zero). -/
inductive JsFloat where
  | fin : ℝ → JsFloat
  | posInf : JsFloat
  | negInf : JsFloat
  | nan : JsFloat

/-- IEEE division `a / b` for finite operands (the only division in the
score arithmetic is `d / radiusMeters`, both finite): a zero divisor
gives NaN on `0 / 0` and a signed infinity otherwise; a nonzero divisor
gives the exact quotient. -/
def jsDiv (a b : ℝ) : JsFloat :=
  if b = 0 then
    if a = 0 then JsFloat.nan
    else if 0 < a then JsFloat.posInf
    else JsFloat.negInf
  else JsFloat.fin (a / b)

/-- IEEE `1 - x`: finite subtraction, `1 - (±Infinity) = ∓Infinity`, and
NaN propagates. -/
def jsOneSub : JsFloat → JsFloat
  | JsFloat.fin a => JsFloat.fin (1 - a)
  | JsFloat.posInf => JsFloat.negInf
  | JsFloat.negInf => JsFloat.posInf
  | JsFloat.nan => JsFloat.nan

/-- JS `Math.min(c, x)` for a finite constant `c`: NaN propagates, an
infinity compares as larger/smaller than every finite value. -/
def jsMin (c : ℝ) : JsFloat → JsFloat
  | JsFloat.fin a => JsFloat.fin (min c a)
  | JsFloat.posInf => JsFloat.fin c
  | JsFloat.negInf => JsFloat.negInf
  | JsFloat.nan => JsFloat.nan

/-- JS `Math.max(c, x)` for a finite constant `c`: NaN propagates, an
infinity compares as larger/smaller than every finite value. -/
def jsMax (c : ℝ) : JsFloat → JsFloat
  | JsFloat.fin a => JsFloat.fin (max c a)
  | JsFloat.posInf => JsFloat.posInf
  | JsFloat.negInf => JsFloat.fin c
  | JsFloat.nan => JsFloat.nan

/-- `clamp01` of poi-index.ts under IEEE semantics:
`Math.max(0, Math.min(1, x))`; NaN propagates through both steps. -/
def jsClamp01 (x : JsFloat) : JsFloat := jsMax 0 (jsMin 1 x)

/-- JS `Math.pow(x, 1.3)`: NaN propagates; a negative finite base with
this non-integer exponent gives NaN (unreachable after `jsClamp01`); a
non-negative finite base gives the exact real power; `±Infinity` to the
positive non-odd-integer power 1.3 gives `+Infinity`. -/
def jsPow13 : JsFloat → JsFloat
  | JsFloat.fin a => if 0 ≤ a then JsFloat.fin (a ^ (1.3 : ℝ)) else JsFloat.nan
  | JsFloat.posInf => JsFloat.posInf
  | JsFloat.negInf => JsFloat.posInf
  | JsFloat.nan => JsFloat.nan

/-- IEEE multiplication by a finite constant `w` (the weights and mix
constants): NaN propagates, `0 * Infinity = NaN`, otherwise an infinity
keeps or flips its sign with the sign of `w`. -/
def jsMulFin (w : ℝ) : JsFloat → JsFloat
  | JsFloat.fin a => JsFloat.fin (w * a)
  | JsFloat.posInf =>
    if w = 0 then JsFloat.nan else if 0 < w then JsFloat.posInf else JsFloat.negInf
  | JsFloat.negInf =>
    if w = 0 then JsFloat.nan else if 0 < w then JsFloat.negInf else JsFloat.posInf
  | JsFloat.nan => JsFloat.nan

/-- IEEE addition: NaN propagates, opposite infinities give NaN, an
infinity absorbs anything else. -/
def jsAdd : JsFloat → JsFloat → JsFloat
  | JsFloat.nan, _ => JsFloat.nan
  | _, JsFloat.nan => JsFloat.nan
  | JsFloat.fin a, JsFloat.fin b => JsFloat.fin (a + b)
  | JsFloat.posInf, JsFloat.negInf => JsFloat.nan
  | JsFloat.negInf, JsFloat.posInf => JsFloat.nan
  | JsFloat.posInf, _ => JsFloat.posInf
  | JsFloat.negInf, _ => JsFloat.negInf
  | JsFloat.fin _, JsFloat.posInf => JsFloat.posInf
  | JsFloat.fin _, JsFloat.negInf => JsFloat.negInf

/-- The `prox` closure of `scorePoint` under exact IEEE semantics:
`Math.pow(clamp01(1 - d / radiusMeters), 1.3)`, with the non-finite
`nearest?.distance_m ?? Infinity` argument (modelled `none`) returning 0
through the `Number.isFinite` guard.  At radius 0 with a nearest
distance of exactly 0 the inner division is `0 / 0 = NaN` and the NaN
propagates to the result. -/
def jsProx (radiusMeters : ℝ) : Option ℝ → JsFloat
  | none => JsFloat.fin 0
  | some d => jsPow13 (jsClamp01 (jsOneSub (jsDiv d radiusMeters)))

/-- The per-category score expression of `scorePoint` under exact IEEE
semantics: `weight * (MIX_COUNTS * countNorm + MIX_PROX * prox)`; the
count normalisation `n / (n + 4)` has a positive denominator and is
always finite, so it stays a real. -/
def jsCategoryScore (w radiusMeters : ℝ) (n : ℕ) (od : Option ℝ) : JsFloat :=
  jsMulFin w
    (jsAdd (JsFloat.fin (MIX_COUNTS * countNorm n))
      (jsMulFin MIX_PROX (jsProx radiusMeters od)))

/-- The score field of `scorePoint` under exact IEEE semantics: the same
counts and nearest in-radius distances (via `nearbyPois`, whose
arithmetic never leaves the reals), fed into the NaN-propagating score
arithmetic `clamp01(sScore + cScore + hScore)`.  `jsScorePoint_eq`
proves this agrees with the real-valued `scorePoint` score for every
nonzero radius. -/
def jsScorePoint (L : Layers) (params : ScoreParams) : JsFloat :=
  jsClamp01
    (jsAdd
      (jsAdd
        (jsCategoryScore WEIGHTS.shelter (params.radiusMeters.getD 1500)
          (nearbyPois L params.lon params.lat (params.radiusMeters.getD 1500)
            (params.topN.getD 25)).shelters.length
          ((nearbyPois L params.lon params.lat (params.radiusMeters.getD 1500)
            (params.topN.getD 25)).shelters.head?.map PoiNear.distance_m))
        (jsCategoryScore WEIGHTS.school (params.radiusMeters.getD 1500)
          (nearbyPois L params.lon params.lat (params.radiusMeters.getD 1500)
            (params.topN.getD 25)).schools.length
          ((nearbyPois L params.lon params.lat (params.radiusMeters.getD 1500)
            (params.topN.getD 25)).schools.head?.map PoiNear.distance_m)))
      (jsCategoryScore WEIGHTS.health (params.radiusMeters.getD 1500)
        (nearbyPois L params.lon params.lat (params.radiusMeters.getD 1500)
          (params.topN.getD 25)).healths.length
        ((nearbyPois L params.lon params.lat (params.radiusMeters.getD 1500)
          (params.topN.getD 25)).healths.head?.map PoiNear.distance_m)))

end

/-! ### Helper lemmas -/

open scoped Classical

theorem clamp01_nonneg (x : ℝ) : 0 ≤ clamp01 x := le_max_left 0 _

theorem clamp01_le_one (x : ℝ) : clamp01 x ≤ 1 :=
  max_le (by norm_num) (min_le_left 1 x)

theorem clamp01_mono {x y : ℝ} (h : x ≤ y) : clamp01 x ≤ clamp01 y :=
  max_le_max le_rfl (min_le_min le_rfl h)

theorem clamp01_of_one_le {x : ℝ} (h : 1 ≤ x) : clamp01 x = 1 := by
  unfold clamp01
  rw [min_eq_left h, max_eq_right zero_le_one]

theorem clamp01_eq_self {x : ℝ} (h0 : 0 ≤ x) (h1 : x ≤ 1) : clamp01 x = x := by
  unfold clamp01
  rw [min_eq_right h1, max_eq_right h0]

theorem clamp01_eq_zero_iff {x : ℝ} : clamp01 x = 0 ↔ x ≤ 0 := by
  unfold clamp01
  constructor
  · intro h
    by_contra hx
    push_neg at hx
    have : 0 < min 1 x := lt_min one_pos hx
    rw [max_eq_right this.le] at h
    exact this.ne' h
  · intro h
    rw [min_eq_right (h.trans zero_le_one), max_eq_left h]

theorem countNorm_nonneg (n : ℕ) : 0 ≤ countNorm n := by
  unfold countNorm COUNT_SAT_K
  positivity

theorem countNorm_le_one (n : ℕ) : countNorm n ≤ 1 := by
  unfold countNorm COUNT_SAT_K
  rw [div_le_one (by positivity)]
  linarith [Nat.cast_nonneg (α := ℝ) n]

theorem countNorm_zero : countNorm 0 = 0 := by
  unfold countNorm
  norm_num

theorem countNorm_mono {n m : ℕ} (h : n ≤ m) : countNorm n ≤ countNorm m := by
  unfold countNorm COUNT_SAT_K
  have hn : (0 : ℝ) ≤ n := Nat.cast_nonneg n
  have hm : (n : ℝ) ≤ m := Nat.cast_le.mpr h
  rw [div_le_div_iff (by linarith) (by linarith)]
  nlinarith

theorem prox_nonneg (r : ℝ) (od : Option ℝ) : 0 ≤ prox r od := by
  cases od with
  | none => exact le_rfl
  | some d => exact Real.rpow_nonneg (clamp01_nonneg _) _

theorem prox_le_one (r : ℝ) (od : Option ℝ) : prox r od ≤ 1 := by
  cases od with
  | none => exact zero_le_one
  | some d => exact Real.rpow_le_one (clamp01_nonneg _) (clamp01_le_one _) (by norm_num)

theorem prox_none (r : ℝ) : prox r none = 0 := rfl

theorem prox_clamp_eq_one_of_nonpos {r d : ℝ} (hr : r ≤ 0) (hd : 0 ≤ d) :
    prox r (some d) = 1 := by
  show clamp01 (1 - d / r) ^ (1.3 : ℝ) = 1
  have harg : 1 ≤ 1 - d / r := by
    rcases eq_or_lt_of_le hr with h0 | hneg
    · rw [h0, div_zero]
      norm_num
    · have : d / r ≤ 0 := div_nonpos_of_nonneg_of_nonpos hd hr
      linarith
  rw [clamp01_of_one_le harg, Real.one_rpow]

theorem prox_anti (r : ℝ) {d1 d2 : ℝ} (h0 : 0 ≤ d1) (h : d1 ≤ d2) :
    prox r (some d2) ≤ prox r (some d1) := by
  rcases le_or_lt r 0 with hr | hr
  · rw [prox_clamp_eq_one_of_nonpos hr h0, prox_clamp_eq_one_of_nonpos hr (h0.trans h)]
  · unfold prox
    have hdiv : d1 / r ≤ d2 / r := (div_le_div_iff_of_pos_right hr).mpr h
    exact Real.rpow_le_rpow (clamp01_nonneg _) (clamp01_mono (by linarith)) (by norm_num)

theorem prox_at_zero {r : ℝ} (hr : 0 < r) : prox r (some 0) = 1 := by
  show clamp01 (1 - 0 / r) ^ (1.3 : ℝ) = 1
  rw [zero_div, sub_zero, clamp01_of_one_le le_rfl, Real.one_rpow]

theorem prox_eq_zero_iff {r d : ℝ} (hr : 0 < r) :
    prox r (some d) = 0 ↔ r ≤ d := by
  unfold prox
  rw [Real.rpow_eq_zero (clamp01_nonneg _) (by norm_num), clamp01_eq_zero_iff,
    sub_nonpos, le_div_iff₀ hr, one_mul]

theorem categoryScore_nonneg {w : ℝ} (hw : 0 ≤ w) (r : ℝ) (n : ℕ) (od : Option ℝ) :
    0 ≤ categoryScore w r n od := by
  unfold categoryScore
  have h1 : (0 : ℝ) ≤ MIX_COUNTS * countNorm n := by
    have := countNorm_nonneg n
    unfold MIX_COUNTS
    nlinarith
  have h2 : (0 : ℝ) ≤ MIX_PROX * prox r od := by
    have := prox_nonneg r od
    unfold MIX_PROX MIX_COUNTS
    nlinarith
  nlinarith

theorem mix_sum_le_one (r : ℝ) (n : ℕ) (od : Option ℝ) :
    MIX_COUNTS * countNorm n + MIX_PROX * prox r od ≤ 1 := by
  have hc1 := countNorm_le_one n
  have hc0 := countNorm_nonneg n
  have hp1 := prox_le_one r od
  have hp0 := prox_nonneg r od
  unfold MIX_PROX MIX_COUNTS
  nlinarith

theorem categoryScore_le_weight {w : ℝ} (hw : 0 ≤ w) (r : ℝ) (n : ℕ) (od : Option ℝ) :
    categoryScore w r n od ≤ w := by
  have h := mul_le_mul_of_nonneg_left (mix_sum_le_one r n od) hw
  rw [mul_one] at h
  exact h

theorem asinArg_nonneg (lon1 lat1 lon2 lat2 : ℝ) :
    0 ≤ min 1 (Real.sqrt (haversineA lon1 lat1 lon2 lat2)) :=
  le_min zero_le_one (Real.sqrt_nonneg _)

theorem asinArg_le_one (lon1 lat1 lon2 lat2 : ℝ) :
    min 1 (Real.sqrt (haversineA lon1 lat1 lon2 lat2)) ≤ 1 :=
  min_le_left _ _

theorem haversine_nonneg (lon1 lat1 lon2 lat2 : ℝ) :
    0 ≤ haversineMeters lon1 lat1 lon2 lat2 := by
  unfold haversineMeters
  have h := Real.arcsin_nonneg.mpr (asinArg_nonneg lon1 lat1 lon2 lat2)
  have hR : (0 : ℝ) ≤ 2 * R_EARTH := by unfold R_EARTH; norm_num
  exact mul_nonneg hR h

theorem haversineA_self (lon lat : ℝ) : haversineA lon lat lon lat = 0 := by
  unfold haversineA toRad
  simp

theorem haversine_self (lon lat : ℝ) : haversineMeters lon lat lon lat = 0 := by
  unfold haversineMeters
  rw [haversineA_self, Real.sqrt_zero, min_eq_right zero_le_one, Real.arcsin_zero, mul_zero]

theorem haversine_le_bound (lon1 lat1 lon2 lat2 : ℝ) :
    haversineMeters lon1 lat1 lon2 lat2 ≤ R_EARTH * Real.pi := by
  unfold haversineMeters
  have h := Real.arcsin_le_pi_div_two (min 1 (Real.sqrt (haversineA lon1 lat1 lon2 lat2)))
  have hR : (0 : ℝ) ≤ 2 * R_EARTH := by unfold R_EARTH; norm_num
  calc 2 * R_EARTH * Real.arcsin (min 1 (Real.sqrt (haversineA lon1 lat1 lon2 lat2)))
      ≤ 2 * R_EARTH * (Real.pi / 2) := mul_le_mul_of_nonneg_left h hR
    _ = R_EARTH * Real.pi := by ring

theorem haversineA_antipodal : haversineA 0 0 180 0 = 1 := by
  unfold haversineA toRad
  rw [show ((180 : ℝ) - 0) * Real.pi / 180 / 2 = Real.pi / 2 by ring,
    show ((0 : ℝ) - 0) * Real.pi / 180 / 2 = 0 by ring,
    show (0 : ℝ) * Real.pi / 180 = 0 by ring,
    Real.sin_zero, Real.cos_zero, Real.sin_pi_div_two]
  norm_num

theorem haversine_antipodal : haversineMeters 0 0 180 0 = R_EARTH * Real.pi := by
  unfold haversineMeters
  rw [haversineA_antipodal, Real.sqrt_one, min_self, Real.arcsin_one]
  ring

theorem withDistances_distance_nonneg (kind : String) (arr : List Poi) (lon lat : ℝ) :
    ∀ p ∈ withDistances kind arr lon lat, 0 ≤ p.distance_m := by
  intro p hp
  unfold withDistances at hp
  obtain ⟨q, _, rfl⟩ := List.mem_map.mp hp
  exact haversine_nonneg lon lat (↑q.lon) (↑q.lat)

theorem sortByDistance_perm (l : List PoiNear) : (sortByDistance l).Perm l :=
  List.mergeSort_perm l _

theorem mem_sortByDistance {l : List PoiNear} {p : PoiNear} :
    p ∈ sortByDistance l ↔ p ∈ l :=
  (sortByDistance_perm l).mem_iff

theorem mem_withinRadius {l : List PoiNear} {r : ℝ} {p : PoiNear} :
    p ∈ withinRadius l r ↔ p ∈ l ∧ p.distance_m ≤ r := by
  unfold withinRadius
  rw [List.mem_filter, decide_eq_true_iff]

theorem withinRadius_neg_eq_nil {l : List PoiNear} {r : ℝ}
    (hd : ∀ p ∈ l, 0 ≤ p.distance_m) (hr : r < 0) : withinRadius l r = [] := by
  unfold withinRadius
  rw [List.filter_eq_nil_iff]
  intro p hp
  simp only [decide_eq_true_eq]
  exact not_le.mpr (lt_of_lt_of_le hr (hd p hp))

theorem withinRadius_sort_length (l : List PoiNear) (r : ℝ) :
    (withinRadius (sortByDistance l) r).length = (withinRadius l r).length :=
  ((sortByDistance_perm l).filter _).length_eq

theorem dedupeAux_mem_iff (l : List Poi) :
    ∀ (seen : List (String × ℚ × ℚ)) (q : Poi),
      q ∈ dedupeAux l seen ↔
        poiKey q ∉ seen ∧ l.find? (fun x => decide (poiKey x = poiKey q)) = some q := by
  induction l with
  | nil =>
    intro seen q
    simp [dedupeAux]
  | cons p rest ih =>
    intro seen q
    unfold dedupeAux
    by_cases hp : poiKey p ∈ seen
    · rw [if_pos hp, ih]
      constructor
      · rintro ⟨h1, h2⟩
        refine ⟨h1, ?_⟩
        rw [List.find?_cons_of_neg]
        · exact h2
        · simp only [decide_eq_true_eq]
          intro he
          exact h1 (he ▸ hp)
      · rintro ⟨h1, h2⟩
        refine ⟨h1, ?_⟩
        rwa [List.find?_cons_of_neg] at h2
        simp only [decide_eq_true_eq]
        intro he
        exact h1 (he ▸ hp)
    · rw [if_neg hp]
      rw [List.mem_cons, ih]
      constructor
      · rintro (rfl | ⟨h1, h2⟩)
        · refine ⟨hp, ?_⟩
          rw [List.find?_cons_of_pos]
          simp
        · rw [List.mem_cons] at h1
          push_neg at h1
          refine ⟨h1.2, ?_⟩
          rw [List.find?_cons_of_neg]
          · exact h2
          · simp only [decide_eq_true_eq]
            exact fun he => h1.1 he.symm
      · rintro ⟨h1, h2⟩
        by_cases hk : poiKey p = poiKey q
        · left
          rw [List.find?_cons_of_pos] at h2
          · exact (Option.some_injective _ h2).symm
          · simp [hk]
        · right
          rw [List.find?_cons_of_neg] at h2
          · refine ⟨?_, h2⟩
            rw [List.mem_cons]
            push_neg
            exact ⟨fun he => hk he.symm, h1⟩
          · simp [hk]

theorem dedupePois_mem_iff (l : List Poi) (q : Poi) :
    q ∈ dedupePois l ↔ l.find? (fun x => decide (poiKey x = poiKey q)) = some q := by
  unfold dedupePois
  rw [dedupeAux_mem_iff]
  simp

theorem dedupeAux_keys_nodup (l : List Poi) :
    ∀ seen : List (String × ℚ × ℚ),
      ((dedupeAux l seen).map poiKey).Nodup ∧
        ∀ k ∈ (dedupeAux l seen).map poiKey, k ∉ seen := by
  induction l with
  | nil =>
    intro seen
    simp [dedupeAux]
  | cons p rest ih =>
    intro seen
    unfold dedupeAux
    by_cases hp : poiKey p ∈ seen
    · rw [if_pos hp]
      exact ih seen
    · rw [if_neg hp]
      have h := ih (poiKey p :: seen)
      constructor
      · rw [List.map_cons, List.nodup_cons]
        refine ⟨fun hmem => ?_, h.1⟩
        exact h.2 (poiKey p) hmem (List.mem_cons_self _ _)
      · intro k hk
        rw [List.map_cons, List.mem_cons] at hk
        rcases hk with rfl | hk
        · exact hp
        · intro hks
          exact h.2 k hk (List.mem_cons_of_mem _ hks)

theorem dedupePois_keys_nodup (l : List Poi) : ((dedupePois l).map poiKey).Nodup :=
  (dedupeAux_keys_nodup l []).1

theorem nearbyPois_shelters (L : Layers) (lon lat r : ℝ) (tN : ℕ) :
    (nearbyPois L lon lat r tN).shelters =
      (withinRadius (sortByDistance (withDistances ("shelter") L.shelter lon lat)) r).take tN := rfl

theorem nearbyPois_schools (L : Layers) (lon lat r : ℝ) (tN : ℕ) :
    (nearbyPois L lon lat r tN).schools =
      (withinRadius (sortByDistance (withDistances ("school") L.school lon lat)) r).take tN := rfl

theorem nearbyPois_healths (L : Layers) (lon lat r : ℝ) (tN : ℕ) :
    (nearbyPois L lon lat r tN).healths =
      (withinRadius (sortByDistance (withDistances ("health") L.health lon lat)) r).take tN := rfl

theorem nearbyPois_params (L : Layers) (lon lat r : ℝ) (tN : ℕ) :
    (nearbyPois L lon lat r tN).params = ⟨lon, lat, r, tN⟩ := rfl

theorem scorePoint_shelters (L : Layers) (p : ScoreParams) :
    (scorePoint L p).shelters =
      ⟨(nearbyPois L p.lon p.lat (p.radiusMeters.getD 1500) (p.topN.getD 25)).shelters.length,
        (nearbyPois L p.lon p.lat (p.radiusMeters.getD 1500) (p.topN.getD 25)).shelters.head?⟩ := rfl

theorem scorePoint_schools (L : Layers) (p : ScoreParams) :
    (scorePoint L p).schools =
      ⟨(nearbyPois L p.lon p.lat (p.radiusMeters.getD 1500) (p.topN.getD 25)).schools.length,
        (nearbyPois L p.lon p.lat (p.radiusMeters.getD 1500) (p.topN.getD 25)).schools.head?⟩ := rfl

theorem scorePoint_healths (L : Layers) (p : ScoreParams) :
    (scorePoint L p).healths =
      ⟨(nearbyPois L p.lon p.lat (p.radiusMeters.getD 1500) (p.topN.getD 25)).healths.length,
        (nearbyPois L p.lon p.lat (p.radiusMeters.getD 1500) (p.topN.getD 25)).healths.head?⟩ := rfl

theorem scorePoint_params (L : Layers) (p : ScoreParams) :
    (scorePoint L p).params =
      ⟨p.lon, p.lat, p.radiusMeters.getD 1500, WEIGHTS, p.topN.getD 25⟩ := rfl

theorem scorePoint_score_eq (L : Layers) (p : ScoreParams) :
    (scorePoint L p).score =
      clamp01
        (categoryScore WEIGHTS.shelter (p.radiusMeters.getD 1500)
            (scorePoint L p).shelters.count
            ((scorePoint L p).shelters.nearest.map PoiNear.distance_m) +
          categoryScore WEIGHTS.school (p.radiusMeters.getD 1500)
            (scorePoint L p).schools.count
            ((scorePoint L p).schools.nearest.map PoiNear.distance_m) +
          categoryScore WEIGHTS.health (p.radiusMeters.getD 1500)
            (scorePoint L p).healths.count
            ((scorePoint L p).healths.nearest.map PoiNear.distance_m)) := rfl

theorem categoryScore_empty (w r : ℝ) : categoryScore w r 0 none = 0 := by
  unfold categoryScore
  rw [countNorm_zero, prox_none]
  ring

theorem WEIGHTS_shelter : WEIGHTS.shelter = 0.6 := rfl

theorem WEIGHTS_school : WEIGHTS.school = 0.25 := rfl

theorem WEIGHTS_health : WEIGHTS.health = 0.15 := rfl

/-! ### Claim theorems -/

/-- C9: `haversineMeters` is total on (finite) real inputs and always
returns a non-negative number bounded by `R_EARTH * pi` (hence finite);
the argument passed to `asin` is clamped into `[-1, 1]`, so the `asin`
domain-error branch is unreachable; and the distance between a point and
itself is 0. -/
theorem haversine_total_and_safe (lon1 lat1 lon2 lat2 : ℝ) :
    0 ≤ haversineMeters lon1 lat1 lon2 lat2 ∧
      haversineMeters lon1 lat1 lon2 lat2 ≤ R_EARTH * Real.pi ∧
      (-1 ≤ min 1 (Real.sqrt (haversineA lon1 lat1 lon2 lat2)) ∧
        min 1 (Real.sqrt (haversineA lon1 lat1 lon2 lat2)) ≤ 1) ∧
      haversineMeters lon1 lat1 lon1 lat1 = 0 :=
  ⟨haversine_nonneg lon1 lat1 lon2 lat2,
    haversine_le_bound lon1 lat1 lon2 lat2,
    ⟨le_trans (by norm_num) (asinArg_nonneg lon1 lat1 lon2 lat2),
      asinArg_le_one lon1 lat1 lon2 lat2⟩,
    haversine_self lon1 lat1⟩

/-- C3 counterexample: the weights reported by `scorePoint` under the
default configuration are 0.6 / 0.25 / 0.15, not the 0.5 / 0.3 / 0.2 the
claim states. -/
theorem weights_counterexample :
    (scorePoint emptyLayers ⟨0, 0, none, none⟩).params.weights = ⟨0.6, 0.25, 0.15⟩ ∧
      ((⟨0.6, 0.25, 0.15⟩ : Weights) ≠ ⟨0.5, 0.3, 0.2⟩) := by
  refine ⟨rfl, fun h => ?_⟩
  have h1 : (0.6 : ℝ) = 0.5 := congrArg Weights.shelter h
  norm_num at h1

/-- C3 amended: the default category weights of the poi-index scoring
engine are shelter 0.6, school 0.25, health 0.15, and these are the
weights reported in every `ScoreResult`; the 0.5 / 0.3 / 0.2 split of the
spec is the one used by the older `score.ts` engine. -/
theorem weights_default :
    WEIGHTS = ⟨0.6, 0.25, 0.15⟩ ∧
      (∀ (L : Layers) (params : ScoreParams),
        (scorePoint L params).params.weights = WEIGHTS) ∧
      scoreTs.w = ⟨0.5, 0.3, 0.2⟩ :=
  ⟨rfl, fun _ _ => rfl, rfl⟩

/-- C8: membership in `dedupePois l` is exactly being the first element
of `l` carrying one's (name, lon, lat) key, so two features with an
identical key yield exactly one output `Poi`, the first occurrence;
output keys are pairwise distinct; the health layer of `ensureLoaded` is
the health and hospital sources merged and deduplicated by the same
rule, and `readGeoPoints` itself deduplicates its parsed features with
the same function. -/
theorem dedupe_first_wins :
    (∀ (l : List Poi) (q : Poi),
        q ∈ dedupePois l ↔
          l.find? (fun x => decide (poiKey x = poiKey q)) = some q) ∧
      (∀ l : List Poi, ((dedupePois l).map poiKey).Nodup) ∧
      (∀ gf : GeoFiles,
        (ensureLoaded gf).health =
          dedupePois (readGeoPoints gf.health ++ readGeoPoints gf.hospital)) ∧
      (∀ feats : List Feature,
        readGeoPoints feats = dedupePois (feats.filterMap parseFeature)) :=
  ⟨dedupePois_mem_iff, dedupePois_keys_nodup, fun _ => rfl, fun _ => rfl⟩

/-- C5: the category score is monotone in both signals: the count
sub-score is 0 at count 0 and non-decreasing in the count (so, holding
the nearest distance fixed, a larger in-radius count never decreases the
category score), and, holding the count fixed, a larger nearest distance
never increases the proximity sub-score nor the category score. -/
theorem categoryScore_monotone :
    countNorm 0 = 0 ∧
      (∀ n1 n2 : ℕ, n1 ≤ n2 → countNorm n1 ≤ countNorm n2) ∧
      (∀ (w r : ℝ) (od : Option ℝ) (n1 n2 : ℕ), 0 ≤ w → n1 ≤ n2 →
        categoryScore w r n1 od ≤ categoryScore w r n2 od) ∧
      (∀ (r d1 d2 : ℝ), 0 ≤ d1 → d1 ≤ d2 →
        prox r (some d2) ≤ prox r (some d1)) ∧
      (∀ (w r : ℝ) (n : ℕ) (d1 d2 : ℝ), 0 ≤ w → 0 ≤ d1 → d1 ≤ d2 →
        categoryScore w r n (some d2) ≤ categoryScore w r n (some d1)) := by
  have hmc : (0 : ℝ) ≤ MIX_COUNTS := by unfold MIX_COUNTS; norm_num
  have hmp : (0 : ℝ) ≤ MIX_PROX := by unfold MIX_PROX MIX_COUNTS; norm_num
  refine ⟨countNorm_zero, fun n1 n2 h => countNorm_mono h, ?_, ?_, ?_⟩
  · intro w r od n1 n2 hw h
    unfold categoryScore
    apply mul_le_mul_of_nonneg_left _ hw
    have := mul_le_mul_of_nonneg_left (countNorm_mono h) hmc
    linarith
  · intro r d1 d2 h0 h
    exact prox_anti r h0 h
  · intro w r n d1 d2 hw h0 h
    unfold categoryScore
    apply mul_le_mul_of_nonneg_left _ hw
    have := mul_le_mul_of_nonneg_left (prox_anti r h0 h) hmp
    linarith

/-- Witness for C5 at concrete inputs. -/
theorem categoryScore_monotone_witness :
    ((1 : ℕ) ≤ 2 ∧ (0 : ℝ) ≤ 0.6 ∧ (0 : ℝ) ≤ 100 ∧ (100 : ℝ) ≤ 200) ∧
      countNorm 1 ≤ countNorm 2 ∧
      categoryScore 0.6 1500 1 (some 100) ≤ categoryScore 0.6 1500 2 (some 100) ∧
      prox 1500 (some 200) ≤ prox 1500 (some 100) ∧
      categoryScore 0.6 1500 1 (some 200) ≤ categoryScore 0.6 1500 1 (some 100) :=
  ⟨⟨by norm_num, by norm_num, by norm_num, by norm_num⟩,
    categoryScore_monotone.2.1 1 2 (by norm_num),
    categoryScore_monotone.2.2.1 0.6 1500 (some 100) 1 2 (by norm_num) (by norm_num),
    categoryScore_monotone.2.2.2.1 1500 100 200 (by norm_num) (by norm_num),
    categoryScore_monotone.2.2.2.2 0.6 1500 1 100 200 (by norm_num) (by norm_num) (by norm_num)⟩

theorem take_withinRadius_length (kind : String) (arr : List Poi) (lon lat r : ℝ) (tN : ℕ) :
    ((withinRadius (sortByDistance (withDistances kind arr lon lat)) r).take tN).length =
      min (withinRadius (withDistances kind arr lon lat) r).length tN := by
  rw [List.length_take, withinRadius_sort_length]
  exact min_comm _ _

/-- C10: `scorePoint` caps each category at topN (default 25): the
reported count is the minimum of the true in-radius count and topN, the
count sub-score is therefore at most topN / (topN + K), and the
`nearest` field is the head of the truncated in-radius candidate
list. -/
theorem scorePoint_topN_cap (L : Layers) (params : ScoreParams) :
    ((scorePoint L params).shelters.count =
        min (withinRadius (withDistances ("shelter") L.shelter params.lon params.lat)
            (params.radiusMeters.getD 1500)).length (params.topN.getD 25) ∧
      (scorePoint L params).schools.count =
        min (withinRadius (withDistances ("school") L.school params.lon params.lat)
            (params.radiusMeters.getD 1500)).length (params.topN.getD 25) ∧
      (scorePoint L params).healths.count =
        min (withinRadius (withDistances ("health") L.health params.lon params.lat)
            (params.radiusMeters.getD 1500)).length (params.topN.getD 25)) ∧
      (countNorm (scorePoint L params).shelters.count ≤
          (params.topN.getD 25 : ℝ) / ((params.topN.getD 25 : ℝ) + COUNT_SAT_K) ∧
        countNorm (scorePoint L params).schools.count ≤
          (params.topN.getD 25 : ℝ) / ((params.topN.getD 25 : ℝ) + COUNT_SAT_K) ∧
        countNorm (scorePoint L params).healths.count ≤
          (params.topN.getD 25 : ℝ) / ((params.topN.getD 25 : ℝ) + COUNT_SAT_K)) ∧
      ((scorePoint L params).shelters.nearest =
          ((withinRadius (sortByDistance (withDistances ("shelter") L.shelter params.lon params.lat))
              (params.radiusMeters.getD 1500)).take (params.topN.getD 25)).head? ∧
        (scorePoint L params).schools.nearest =
          ((withinRadius (sortByDistance (withDistances ("school") L.school params.lon params.lat))
              (params.radiusMeters.getD 1500)).take (params.topN.getD 25)).head? ∧
        (scorePoint L params).healths.nearest =
          ((withinRadius (sortByDistance (withDistances ("health") L.health params.lon params.lat))
              (params.radiusMeters.getD 1500)).take (params.topN.getD 25)).head?) := by
  have hs := take_withinRadius_length ("shelter") L.shelter params.lon params.lat
    (params.radiusMeters.getD 1500) (params.topN.getD 25)
  have hc := take_withinRadius_length ("school") L.school params.lon params.lat
    (params.radiusMeters.getD 1500) (params.topN.getD 25)
  have hh := take_withinRadius_length ("health") L.health params.lon params.lat
    (params.radiusMeters.getD 1500) (params.topN.getD 25)
  refine ⟨⟨hs, hc, hh⟩, ⟨?_, ?_, ?_⟩, rfl, rfl, rfl⟩
  · have hle : (scorePoint L params).shelters.count ≤ params.topN.getD 25 := by
      rw [show (scorePoint L params).shelters.count = _ from hs]
      exact min_le_right _ _
    exact countNorm_mono hle
  · have hle : (scorePoint L params).schools.count ≤ params.topN.getD 25 := by
      rw [show (scorePoint L params).schools.count = _ from hc]
      exact min_le_right _ _
    exact countNorm_mono hle
  · have hle : (scorePoint L params).healths.count ≤ params.topN.getD 25 := by
      rw [show (scorePoint L params).healths.count = _ from hh]
      exact min_le_right _ _
    exact countNorm_mono hle

theorem nearbyPois_all_eq (L : Layers) (lon lat r : ℝ) (tN : ℕ) :
    (nearbyPois L lon lat r tN).all =
      sortByDistance
        ((nearbyPois L lon lat r tN).shelters ++ (nearbyPois L lon lat r tN).schools ++
          (nearbyPois L lon lat r tN).healths) := rfl

theorem nearbyPois_empty (lon lat r : ℝ) (tN : ℕ) :
    (nearbyPois emptyLayers lon lat r tN).shelters = [] ∧
      (nearbyPois emptyLayers lon lat r tN).schools = [] ∧
      (nearbyPois emptyLayers lon lat r tN).healths = [] ∧
      (nearbyPois emptyLayers lon lat r tN).all = [] := by
  have h1 : (nearbyPois emptyLayers lon lat r tN).shelters = [] := by
    rw [nearbyPois_shelters]
    simp [emptyLayers, withDistances, sortByDistance, withinRadius]
  have h2 : (nearbyPois emptyLayers lon lat r tN).schools = [] := by
    rw [nearbyPois_schools]
    simp [emptyLayers, withDistances, sortByDistance, withinRadius]
  have h3 : (nearbyPois emptyLayers lon lat r tN).healths = [] := by
    rw [nearbyPois_healths]
    simp [emptyLayers, withDistances, sortByDistance, withinRadius]
  refine ⟨h1, h2, h3, ?_⟩
  rw [nearbyPois_all_eq, h1, h2, h3]
  simp [sortByDistance]

theorem scorePoint_emptyLayers_score (p : ScoreParams) :
    (scorePoint emptyLayers p).score = 0 := by
  obtain ⟨h1, h2, h3, _⟩ :=
    nearbyPois_empty p.lon p.lat (p.radiusMeters.getD 1500) (p.topN.getD 25)
  rw [scorePoint_score_eq, scorePoint_shelters, scorePoint_schools, scorePoint_healths]
  simp [h1, h2, h3, categoryScore_empty, clamp01]

/-- C2 counterexample: a query with an out-of-range longitude (999) and a
negative radius (-5) is processed silently: `scorePoint` returns an
ordinary `ScoreResult` (score 0, the invalid inputs echoed back in
`params`) and `nearbyPois` returns an ordinary empty listing; neither
operation contains any validation or failure path. -/
theorem validation_counterexample :
    (scorePoint emptyLayers ⟨999, 0, some (-5), none⟩).score = 0 ∧
      (scorePoint emptyLayers ⟨999, 0, some (-5), none⟩).params.lon = 999 ∧
      (scorePoint emptyLayers ⟨999, 0, some (-5), none⟩).params.radiusMeters = -5 ∧
      (nearbyPois emptyLayers 999 0 (-5) 25).all = [] :=
  ⟨scorePoint_emptyLayers_score _, rfl, rfl, (nearbyPois_empty 999 0 (-5) 25).2.2.2⟩

/-- C2 amended: `scorePoint` and `nearbyPois` perform no validation of
the query origin or radius: any longitude and latitude (in particular
out-of-range ones) and a negative radius are silently processed, yielding
an ordinary result — empty category lists, score 0, and the inputs echoed
unchanged in `params` — never a validation error; the only finiteness
checks sit in the serving layers outside these operations. -/
theorem no_validation_fail_fast (L : Layers) (lon lat r : ℝ) (tN : ℕ) (hr : r < 0) :
    (nearbyPois L lon lat r tN).shelters = [] ∧
      (nearbyPois L lon lat r tN).schools = [] ∧
      (nearbyPois L lon lat r tN).healths = [] ∧
      (nearbyPois L lon lat r tN).params = ⟨lon, lat, r, tN⟩ ∧
      (scorePoint L ⟨lon, lat, some r, some tN⟩).score = 0 ∧
      (scorePoint L ⟨lon, lat, some r, some tN⟩).params = ⟨lon, lat, r, WEIGHTS, tN⟩ := by
  have key : ∀ (kind : String) (arr : List Poi),
      withinRadius (sortByDistance (withDistances kind arr lon lat)) r = [] := by
    intro kind arr
    apply withinRadius_neg_eq_nil _ hr
    intro p hp
    exact withDistances_distance_nonneg kind arr lon lat p (mem_sortByDistance.mp hp)
  have h1 : (nearbyPois L lon lat r tN).shelters = [] := by
    rw [nearbyPois_shelters, key]
    exact List.take_nil
  have h2 : (nearbyPois L lon lat r tN).schools = [] := by
    rw [nearbyPois_schools, key]
    exact List.take_nil
  have h3 : (nearbyPois L lon lat r tN).healths = [] := by
    rw [nearbyPois_healths, key]
    exact List.take_nil
  refine ⟨h1, h2, h3, rfl, ?_, rfl⟩
  rw [scorePoint_score_eq, scorePoint_shelters, scorePoint_schools, scorePoint_healths]
  simp only [show (ScoreParams.mk lon lat (some r) (some tN)).lon = lon from rfl,
    show (ScoreParams.mk lon lat (some r) (some tN)).lat = lat from rfl,
    show (ScoreParams.mk lon lat (some r) (some tN)).radiusMeters.getD 1500 = r from rfl,
    show (ScoreParams.mk lon lat (some r) (some tN)).topN.getD 25 = tN from rfl]
  simp [h1, h2, h3, categoryScore_empty, clamp01]

/-- Witness for the amended C2 at a concrete invalid query. -/
theorem no_validation_fail_fast_witness :
    ((-5 : ℝ) < 0) ∧
      ((nearbyPois emptyLayers 999 0 (-5) 25).shelters = [] ∧
        (nearbyPois emptyLayers 999 0 (-5) 25).schools = [] ∧
        (nearbyPois emptyLayers 999 0 (-5) 25).healths = [] ∧
        (nearbyPois emptyLayers 999 0 (-5) 25).params = ⟨999, 0, -5, 25⟩ ∧
        (scorePoint emptyLayers ⟨999, 0, some (-5), some 25⟩).score = 0 ∧
        (scorePoint emptyLayers ⟨999, 0, some (-5), some 25⟩).params =
          ⟨999, 0, -5, WEIGHTS, 25⟩) :=
  ⟨by norm_num, no_validation_fail_fast emptyLayers 999 0 (-5) 25 (by norm_num)⟩

theorem sortByDistance_singleton (x : PoiNear) : sortByDistance [x] = [x] :=
  List.mergeSort_singleton x

theorem withinRadius_cons_pos {x : PoiNear} {r : ℝ} (h : x.distance_m ≤ r)
    (l : List PoiNear) : withinRadius (x :: l) r = x :: withinRadius l r := by
  unfold withinRadius
  rw [List.filter_cons, if_pos (by simpa using h)]

theorem withinRadius_cons_neg {x : PoiNear} {r : ℝ} (h : ¬x.distance_m ≤ r)
    (l : List PoiNear) : withinRadius (x :: l) r = withinRadius l r := by
  unfold withinRadius
  rw [List.filter_cons, if_neg (by simpa using h)]

theorem originShelter_distance :
    haversineMeters 0 0 ((originShelter.lon : ℚ) : ℝ) ((originShelter.lat : ℚ) : ℝ) = 0 := by
  show haversineMeters 0 0 ((0 : ℚ) : ℝ) ((0 : ℚ) : ℝ) = 0
  push_cast
  exact haversine_self 0 0

/-- C7 counterexample: with a catalog point exactly at the query origin
(distance 0), a radius of 0 does NOT yield an empty sequence: the point
satisfies the inclusive test `distance <= 0` and is returned by
`nearbyPois`. -/
theorem radius_zero_counterexample :
    (nearbyPois originLayers 0 0 0 25).shelters ≠ [] := by
  rw [nearbyPois_shelters]
  have h1 : withDistances ("shelter") originLayers.shelter 0 0 =
      [⟨("Origin Shelter"), 0, 0, none, none,
        haversineMeters 0 0 ((originShelter.lon : ℚ) : ℝ) ((originShelter.lat : ℚ) : ℝ),
        ("shelter")⟩] := rfl
  rw [h1, sortByDistance_singleton, withinRadius_cons_pos (by rw [originShelter_distance])]
  simp [withinRadius]

/-- C7 amended: membership in `withinRadius` is exactly having distance
at most (inclusively) the radius, so a point at exactly the radius is
included and any strictly farther point is excluded; for non-negative
distances a negative radius yields the empty sequence, but a radius of 0
yields exactly the points at distance 0 (not always the empty
sequence). -/
theorem withinRadius_boundary :
    (∀ (l : List PoiNear) (r : ℝ) (p : PoiNear),
        p ∈ withinRadius l r ↔ p ∈ l ∧ p.distance_m ≤ r) ∧
      (∀ (l : List PoiNear) (r : ℝ),
        (∀ p ∈ l, 0 ≤ p.distance_m) → r < 0 → withinRadius l r = []) ∧
      (∀ (l : List PoiNear) (p : PoiNear), (∀ q ∈ l, 0 ≤ q.distance_m) →
        (p ∈ withinRadius l 0 ↔ p ∈ l ∧ p.distance_m = 0)) := by
  refine ⟨fun l r p => mem_withinRadius, fun l r hd hr => withinRadius_neg_eq_nil hd hr,
    fun l p hd => ?_⟩
  rw [mem_withinRadius]
  constructor
  · rintro ⟨hp, hle⟩
    exact ⟨hp, le_antisymm hle (hd p hp)⟩
  · rintro ⟨hp, heq⟩
    exact ⟨hp, le_of_eq heq⟩

/-- Witness for the amended C7 at concrete inputs. -/
theorem withinRadius_boundary_witness :
    ((∀ p ∈ ([] : List PoiNear), 0 ≤ p.distance_m) ∧ (-1 : ℝ) < 0) ∧
      withinRadius [] (-1) = [] :=
  ⟨⟨by simp, by norm_num⟩, withinRadius_boundary.2.1 [] (-1) (by simp) (by norm_num)⟩

theorem farShelter_distance :
    haversineMeters 0 0 ((farShelter.lon : ℚ) : ℝ) ((farShelter.lat : ℚ) : ℝ) =
      R_EARTH * Real.pi := by
  show haversineMeters 0 0 ((180 : ℚ) : ℝ) ((0 : ℚ) : ℝ) = R_EARTH * Real.pi
  push_cast
  exact haversine_antipodal

theorem farShelter_not_within :
    ¬haversineMeters 0 0 ((farShelter.lon : ℚ) : ℝ) ((farShelter.lat : ℚ) : ℝ) ≤ 1500 := by
  rw [farShelter_distance]
  unfold R_EARTH
  nlinarith [Real.pi_gt_three]

/-- C1 counterexample: the shelter category is non-empty (one shelter on
the antipodal meridian, far outside the 1500 m radius), yet the proximity
sub-score that `scorePoint` uses for it is 0 — contradicting the claim
that the sub-score is 0 exactly when the category contains no point at
all, and that it is a positive decreasing function of the distance to the
nearest catalog point even when that point lies outside the radius. -/
theorem prox_nonempty_counterexample :
    farLayers.shelter ≠ [] ∧
      (scorePoint farLayers ⟨0, 0, some 1500, none⟩).shelters.nearest = none ∧
      prox 1500
          (((scorePoint farLayers ⟨0, 0, some 1500, none⟩).shelters.nearest).map
            PoiNear.distance_m) = 0 := by
  have hnear : (scorePoint farLayers ⟨0, 0, some 1500, none⟩).shelters.nearest = none := by
    rw [scorePoint_shelters]
    show ((withinRadius
        (sortByDistance (withDistances ("shelter") farLayers.shelter 0 0)) 1500).take 25).head? =
      none
    have h1 : withDistances ("shelter") farLayers.shelter 0 0 =
        [⟨("Far Shelter"), 180, 0, none, none,
          haversineMeters 0 0 ((farShelter.lon : ℚ) : ℝ) ((farShelter.lat : ℚ) : ℝ),
          ("shelter")⟩] := rfl
    rw [h1, sortByDistance_singleton, withinRadius_cons_neg farShelter_not_within]
    rfl
  refine ⟨by simp [farLayers], hnear, ?_⟩
  rw [hnear]
  rfl

/-- C1 amended: for a positive radius, the proximity sub-score `prox`
used by `scorePoint` is bounded to [0, 1], monotonically non-increasing
in the nearest distance, equal to 1 as the distance reaches 0, and equal
to 0 exactly when the nearest in-radius distance is absent or at least
the radius — in particular it is 0 whenever the category has no point
strictly inside the radius, not only when the category is empty; the
older engine's `avail` blend, by contrast, is 0 in its proximity branch
only when the category has no point at all. -/
theorem prox_spec (r : ℝ) (hr : 0 < r) :
    (∀ od : Option ℝ, 0 ≤ prox r od ∧ prox r od ≤ 1) ∧
      (∀ d1 d2 : ℝ, 0 ≤ d1 → d1 ≤ d2 → prox r (some d2) ≤ prox r (some d1)) ∧
      prox r none = 0 ∧
      (∀ d : ℝ, prox r (some d) = 0 ↔ r ≤ d) ∧
      prox r (some 0) = 1 ∧
      (∀ softCap : ℝ, scoreTs.avail 0 none softCap = 0) ∧
      (∀ softCap d : ℝ, 0 ≤ d → 0 < scoreTs.avail 0 (some d) softCap) := by
  refine ⟨fun od => ⟨prox_nonneg r od, prox_le_one r od⟩,
    fun d1 d2 h0 h => prox_anti r h0 h, prox_none r,
    fun d => prox_eq_zero_iff hr, prox_at_zero hr, fun softCap => rfl, fun softCap d hd => ?_⟩
  show (0 : ℝ) < 1 / (1 + d / 2000)
  positivity

/-- Witness for the amended C1 at concrete inputs. -/
theorem prox_spec_witness :
    ((0 : ℝ) < 1500 ∧ (0 : ℝ) ≤ 100) ∧
      (0 ≤ prox 1500 (some 100) ∧ prox 1500 (some 100) ≤ 1) ∧
      prox 1500 (some 200) ≤ prox 1500 (some 100) ∧
      prox 1500 none = 0 ∧
      (prox 1500 (some 2000) = 0 ↔ (1500 : ℝ) ≤ 2000) ∧
      prox 1500 (some 0) = 1 ∧
      scoreTs.avail 0 none 1 = 0 ∧
      0 < scoreTs.avail 0 (some 100) 1 :=
  ⟨⟨by norm_num, by norm_num⟩,
    (prox_spec 1500 (by norm_num)).1 (some 100),
    (prox_spec 1500 (by norm_num)).2.1 100 200 (by norm_num) (by norm_num),
    (prox_spec 1500 (by norm_num)).2.2.1,
    (prox_spec 1500 (by norm_num)).2.2.2.1 2000,
    (prox_spec 1500 (by norm_num)).2.2.2.2.1,
    (prox_spec 1500 (by norm_num)).2.2.2.2.2.1 1,
    (prox_spec 1500 (by norm_num)).2.2.2.2.2.2 1 100 (by norm_num)⟩

/-- C6 counterexample: a feature with the finite but out-of-range
longitude 999 passes `readGeoPoints` and lands in the catalog —
the loader checks only finiteness of the coordinates, not the
[-180, 180] / [-90, 90] ranges. -/
theorem range_check_counterexample :
    outOfRangePoi ∈ readGeoPoints [outOfRangeFeature] ∧
      ¬outOfRangePoi.lon ≤ 180 := by
  constructor
  · decide
  · decide

/-- C6 amended: every `Poi` produced by `readGeoPoints` stems from a
feature with a Point geometry, finite coordinate slots (taken over
unchanged, with no range check), and a non-empty trimmed name; features
failing those three checks are dropped; range filtering of coordinates
happens only upstream, in the ETL script that builds the data files. -/
theorem readGeoPoints_checks :
    (∀ (f : Feature) (p : Poi), parseFeature f = some p →
        ∃ g : Geom, f.geometry = some g ∧ g.type = ("Point") ∧
          (g.coordinates.get? 0).getD JsNum.nonFinite = JsNum.fin p.lon ∧
          (g.coordinates.get? 1).getD JsNum.nonFinite = JsNum.fin p.lat ∧
          p.name = jsTrim ((f.name).getD ("")) ∧ ¬p.name = ("")) ∧
      (∀ (feats : List Feature) (p : Poi), p ∈ readGeoPoints feats →
        ∃ f ∈ feats, parseFeature f = some p) := by
  constructor
  · intro f p hp
    unfold parseFeature at hp
    cases hg : f.geometry with
    | none =>
      rw [hg] at hp
      exact absurd hp (by simp)
    | some g =>
      rw [hg] at hp
      dsimp only at hp
      by_cases ht : g.type = ("Point")
      · rw [if_pos ht] at hp
        cases h0 : (g.coordinates.get? 0).getD JsNum.nonFinite with
        | nonFinite =>
          rw [h0] at hp
          cases h1 : (g.coordinates.get? 1).getD JsNum.nonFinite with
          | nonFinite => rw [h1] at hp; exact absurd hp (by simp)
          | fin latv => rw [h1] at hp; exact absurd hp (by simp)
        | fin lonv =>
          rw [h0] at hp
          cases h1 : (g.coordinates.get? 1).getD JsNum.nonFinite with
          | nonFinite => rw [h1] at hp; exact absurd hp (by simp)
          | fin latv =>
            rw [h1] at hp
            simp only [] at hp
            by_cases hn : jsTrim ((f.name).getD ("")) = ("")
            · rw [if_pos hn] at hp
              exact absurd hp (by simp)
            · rw [if_neg hn] at hp
              have hpe := Option.some_injective _ hp
              refine ⟨g, rfl, ht, ?_, ?_, ?_, ?_⟩
              · rw [h0, ← hpe]
              · rw [h1, ← hpe]
              · rw [← hpe]
              · rw [← hpe]
                exact hn
      · rw [if_neg ht] at hp
        exact absurd hp (by simp)
  · intro feats p hp
    unfold readGeoPoints at hp
    rw [dedupePois_mem_iff] at hp
    exact List.mem_filterMap.mp (List.mem_of_find?_eq_some hp)

/-- Witness for the amended C6 at the concrete out-of-range feature. -/
theorem readGeoPoints_checks_witness :
    (parseFeature outOfRangeFeature = some outOfRangePoi ∧
        ∃ g : Geom, outOfRangeFeature.geometry = some g ∧ g.type = ("Point") ∧
          (g.coordinates.get? 0).getD JsNum.nonFinite = JsNum.fin outOfRangePoi.lon ∧
          (g.coordinates.get? 1).getD JsNum.nonFinite = JsNum.fin outOfRangePoi.lat ∧
          outOfRangePoi.name = jsTrim ((outOfRangeFeature.name).getD ("")) ∧
          ¬outOfRangePoi.name = ("")) ∧
      (outOfRangePoi ∈ readGeoPoints [outOfRangeFeature] ∧
        ∃ f ∈ [outOfRangeFeature], parseFeature f = some outOfRangePoi) :=
  ⟨⟨by decide, readGeoPoints_checks.1 outOfRangeFeature outOfRangePoi (by decide)⟩,
    ⟨by decide, readGeoPoints_checks.2 [outOfRangeFeature] outOfRangePoi (by decide)⟩⟩

theorem jsProx_eq {r : ℝ} (hr : r ≠ 0) (od : Option ℝ) :
    jsProx r od = JsFloat.fin (prox r od) := by
  cases od with
  | none => rfl
  | some d =>
    show jsPow13 (jsClamp01 (jsOneSub (jsDiv d r))) =
      JsFloat.fin (clamp01 (1 - d / r) ^ (1.3 : ℝ))
    rw [show jsDiv d r = JsFloat.fin (d / r) from by unfold jsDiv; rw [if_neg hr]]
    show (if 0 ≤ clamp01 (1 - d / r) then JsFloat.fin (clamp01 (1 - d / r) ^ (1.3 : ℝ))
        else JsFloat.nan) = JsFloat.fin (clamp01 (1 - d / r) ^ (1.3 : ℝ))
    rw [if_pos (clamp01_nonneg _)]

theorem jsCategoryScore_eq {r : ℝ} (hr : r ≠ 0) (w : ℝ) (n : ℕ) (od : Option ℝ) :
    jsCategoryScore w r n od = JsFloat.fin (categoryScore w r n od) := by
  unfold jsCategoryScore
  rw [jsProx_eq hr]
  rfl

theorem jsScorePoint_eq (L : Layers) (params : ScoreParams)
    (hr : params.radiusMeters.getD 1500 ≠ 0) :
    jsScorePoint L params = JsFloat.fin ((scorePoint L params).score) := by
  unfold jsScorePoint
  rw [jsCategoryScore_eq hr, jsCategoryScore_eq hr, jsCategoryScore_eq hr]
  rfl

theorem nearbyPois_origin_shelters :
    (nearbyPois originLayers 0 0 0 25).shelters =
      [⟨("Origin Shelter"), 0, 0, none, none,
        haversineMeters 0 0 ((originShelter.lon : ℚ) : ℝ) ((originShelter.lat : ℚ) : ℝ),
        ("shelter")⟩] := by
  rw [nearbyPois_shelters]
  have h1 : withDistances ("shelter") originLayers.shelter 0 0 =
      [⟨("Origin Shelter"), 0, 0, none, none,
        haversineMeters 0 0 ((originShelter.lon : ℚ) : ℝ) ((originShelter.lat : ℚ) : ℝ),
        ("shelter")⟩] := rfl
  rw [h1, sortByDistance_singleton, withinRadius_cons_pos (by rw [originShelter_distance])]
  rfl

theorem nearbyPois_origin_schools :
    (nearbyPois originLayers 0 0 0 25).schools = [] := by
  rw [nearbyPois_schools]
  simp [originLayers, withDistances, sortByDistance, withinRadius]

theorem nearbyPois_origin_healths :
    (nearbyPois originLayers 0 0 0 25).healths = [] := by
  rw [nearbyPois_healths]
  simp [originLayers, withDistances, sortByDistance, withinRadius]

/-- C4 counterexample: at radius exactly 0 with a shelter exactly at the
query origin (distance 0, in-radius under the inclusive filter), the
proximity term of `scorePoint` computes `0 / 0 = NaN` under IEEE
semantics and the NaN propagates through the blend, the sum and the
final clamp: the returned score is NaN, not a real number in [0, 1],
refuting the claim's boundedness for every finite radius. -/
theorem scorePoint_nan_counterexample :
    jsScorePoint originLayers ⟨0, 0, some 0, none⟩ = JsFloat.nan ∧
      ∀ x : ℝ, JsFloat.nan ≠ JsFloat.fin x := by
  constructor
  · unfold jsScorePoint
    simp only [Option.getD_some, Option.getD_none]
    rw [nearbyPois_origin_shelters, nearbyPois_origin_schools, nearbyPois_origin_healths]
    simp only [List.length_cons, List.length_nil, List.head?_cons, List.head?_nil,
      Option.map_some', Option.map_none']
    rw [originShelter_distance]
    simp [jsCategoryScore, jsProx, jsDiv, jsOneSub, jsClamp01, jsMin, jsMax, jsPow13,
      jsMulFin, jsAdd]
  · intro x h
    exact JsFloat.noConfusion h

/-- C4 amended: for every catalog and every query whose (defaulted)
radius is nonzero, the IEEE score computed by `scorePoint` equals the
real-valued score and lies in [0, 1]; the count sub-score, the proximity
sub-score, and each weighted category score lie in [0, 1]; and the final
clamp is a no-op: the score equals the unclamped sum of the three
category scores.  At radius exactly 0 with a catalog point at distance 0
from the origin the proximity term computes 0 / 0 and the returned score
is NaN instead. -/
theorem scorePoint_bounded_amended (L : Layers) (params : ScoreParams)
    (hr : params.radiusMeters.getD 1500 ≠ 0) :
    jsScorePoint L params = JsFloat.fin ((scorePoint L params).score) ∧
      (0 ≤ (scorePoint L params).score ∧ (scorePoint L params).score ≤ 1) ∧
      (∀ n : ℕ, 0 ≤ countNorm n ∧ countNorm n ≤ 1) ∧
      (∀ od : Option ℝ, 0 ≤ prox (params.radiusMeters.getD 1500) od ∧
        prox (params.radiusMeters.getD 1500) od ≤ 1) ∧
      (∀ (n : ℕ) (od : Option ℝ),
        (0 ≤ categoryScore WEIGHTS.shelter (params.radiusMeters.getD 1500) n od ∧
            categoryScore WEIGHTS.shelter (params.radiusMeters.getD 1500) n od ≤ 1) ∧
          (0 ≤ categoryScore WEIGHTS.school (params.radiusMeters.getD 1500) n od ∧
            categoryScore WEIGHTS.school (params.radiusMeters.getD 1500) n od ≤ 1) ∧
          (0 ≤ categoryScore WEIGHTS.health (params.radiusMeters.getD 1500) n od ∧
            categoryScore WEIGHTS.health (params.radiusMeters.getD 1500) n od ≤ 1)) ∧
      (scorePoint L params).score =
        categoryScore WEIGHTS.shelter (params.radiusMeters.getD 1500)
            (scorePoint L params).shelters.count
            ((scorePoint L params).shelters.nearest.map PoiNear.distance_m) +
          categoryScore WEIGHTS.school (params.radiusMeters.getD 1500)
            (scorePoint L params).schools.count
            ((scorePoint L params).schools.nearest.map PoiNear.distance_m) +
          categoryScore WEIGHTS.health (params.radiusMeters.getD 1500)
            (scorePoint L params).healths.count
            ((scorePoint L params).healths.nearest.map PoiNear.distance_m) := by
  have hws : (0 : ℝ) ≤ WEIGHTS.shelter := by rw [WEIGHTS_shelter]; norm_num
  have hwc : (0 : ℝ) ≤ WEIGHTS.school := by rw [WEIGHTS_school]; norm_num
  have hwh : (0 : ℝ) ≤ WEIGHTS.health := by rw [WEIGHTS_health]; norm_num
  have hsum_nonneg : ∀ (r : ℝ) (n1 n2 n3 : ℕ) (o1 o2 o3 : Option ℝ),
      0 ≤ categoryScore WEIGHTS.shelter r n1 o1 + categoryScore WEIGHTS.school r n2 o2 +
        categoryScore WEIGHTS.health r n3 o3 := fun r n1 n2 n3 o1 o2 o3 => by
    have h1 := categoryScore_nonneg hws r n1 o1
    have h2 := categoryScore_nonneg hwc r n2 o2
    have h3 := categoryScore_nonneg hwh r n3 o3
    linarith
  have hsum_le_one : ∀ (r : ℝ) (n1 n2 n3 : ℕ) (o1 o2 o3 : Option ℝ),
      categoryScore WEIGHTS.shelter r n1 o1 + categoryScore WEIGHTS.school r n2 o2 +
        categoryScore WEIGHTS.health r n3 o3 ≤ 1 := fun r n1 n2 n3 o1 o2 o3 => by
    have h1 := categoryScore_le_weight hws r n1 o1
    have h2 := categoryScore_le_weight hwc r n2 o2
    have h3 := categoryScore_le_weight hwh r n3 o3
    have hw : WEIGHTS.shelter + WEIGHTS.school + WEIGHTS.health = 1 := by
      rw [WEIGHTS_shelter, WEIGHTS_school, WEIGHTS_health]
      norm_num
    linarith
  refine ⟨jsScorePoint_eq L params hr, ⟨?_, ?_⟩,
    fun n => ⟨countNorm_nonneg n, countNorm_le_one n⟩,
    fun od => ⟨prox_nonneg _ od, prox_le_one _ od⟩,
    fun n od =>
      ⟨⟨categoryScore_nonneg hws _ n od,
          le_trans (categoryScore_le_weight hws _ n od) (by rw [WEIGHTS_shelter]; norm_num)⟩,
        ⟨categoryScore_nonneg hwc _ n od,
          le_trans (categoryScore_le_weight hwc _ n od) (by rw [WEIGHTS_school]; norm_num)⟩,
        ⟨categoryScore_nonneg hwh _ n od,
          le_trans (categoryScore_le_weight hwh _ n od) (by rw [WEIGHTS_health]; norm_num)⟩⟩,
    ?_⟩
  · rw [scorePoint_score_eq]
    exact clamp01_nonneg _
  · rw [scorePoint_score_eq]
    exact clamp01_le_one _
  · rw [scorePoint_score_eq]
    exact clamp01_eq_self (hsum_nonneg _ _ _ _ _ _ _) (hsum_le_one _ _ _ _ _ _ _)

/-- Witness for the amended C4 at a concrete query with the default
radius 1500. -/
theorem scorePoint_bounded_amended_witness :
    ((⟨0, 0, none, none⟩ : ScoreParams).radiusMeters.getD 1500 ≠ 0) ∧
      (jsScorePoint emptyLayers ⟨0, 0, none, none⟩ =
          JsFloat.fin ((scorePoint emptyLayers ⟨0, 0, none, none⟩).score) ∧
        (0 ≤ (scorePoint emptyLayers ⟨0, 0, none, none⟩).score ∧
          (scorePoint emptyLayers ⟨0, 0, none, none⟩).score ≤ 1) ∧
        (∀ n : ℕ, 0 ≤ countNorm n ∧ countNorm n ≤ 1) ∧
        (∀ od : Option ℝ, 0 ≤ prox 1500 od ∧ prox 1500 od ≤ 1) ∧
        (∀ (n : ℕ) (od : Option ℝ),
          (0 ≤ categoryScore WEIGHTS.shelter 1500 n od ∧
              categoryScore WEIGHTS.shelter 1500 n od ≤ 1) ∧
            (0 ≤ categoryScore WEIGHTS.school 1500 n od ∧
              categoryScore WEIGHTS.school 1500 n od ≤ 1) ∧
            (0 ≤ categoryScore WEIGHTS.health 1500 n od ∧
              categoryScore WEIGHTS.health 1500 n od ≤ 1)) ∧
        (scorePoint emptyLayers ⟨0, 0, none, none⟩).score =
          categoryScore WEIGHTS.shelter 1500
              (scorePoint emptyLayers ⟨0, 0, none, none⟩).shelters.count
              ((scorePoint emptyLayers ⟨0, 0, none, none⟩).shelters.nearest.map
                PoiNear.distance_m) +
            categoryScore WEIGHTS.school 1500
              (scorePoint emptyLayers ⟨0, 0, none, none⟩).schools.count
              ((scorePoint emptyLayers ⟨0, 0, none, none⟩).schools.nearest.map
                PoiNear.distance_m) +
            categoryScore WEIGHTS.health 1500
              (scorePoint emptyLayers ⟨0, 0, none, none⟩).healths.count
              ((scorePoint emptyLayers ⟨0, 0, none, none⟩).healths.nearest.map
                PoiNear.distance_m)) :=
  ⟨by show (1500 : ℝ) ≠ 0; norm_num,
    scorePoint_bounded_amended emptyLayers ⟨0, 0, none, none⟩
      (by show (1500 : ℝ) ≠ 0; norm_num)⟩
